import Mathlib

/-!
Verification of the student-analytics triangulation and classification engine.

The development embeds the two intervention/classification engines of the
repository:

* `TriEngine` — `TriangulatedAnalyticsEngine` (written out by
  `create_analytics_engine.py` into `app/engine/triangulated_analytics.py`):
  threshold tables, the stanine/SAS converters, the three domain classifiers,
  the fragile-learner determination, the triangulated summary and the
  intervention mapper.
* `FixCat4` — the standalone `sas_to_stanine` of `fix_cat4_domains.py`.
* `SAEngine` — `StudentAnalyticsEngine` of `app/engine/analytics.py`:
  `process_student`-style analyses and `generateInterventions`.

Numeric metric values (percentiles, stanines, SAS) are embedded as `ℚ`;
classification levels and priorities are the `String` values the source uses.
Python's `str.replace` is modelled by the structural `strReplace` below.
Presentation-only fields that no theorem touches (free-text descriptions of
PASS factors and CAT4 domains, `overallStatus`, `averageStanine`, `marks`,
`comparison`) are omitted from the record types.
-/

/-- One step of `strReplace`: walk the character list; at skip count `0`, when
`pat` is a prefix of the remaining input, emit `rep` and skip the matched
characters (the head is consumed here, the remaining `pat.length - 1` via the
counter); otherwise keep the head character. Models Python's left-to-right,
non-overlapping `str.replace`. -/
def replaceGo (pat rep : List Char) : List Char → Nat → List Char
  | [], _ => []
  | c :: rest, 0 =>
    if pat.isPrefixOf (c :: rest) then rep ++ replaceGo pat rep rest (pat.length - 1)
    else c :: replaceGo pat rep rest 0
  | _ :: rest, k + 1 => replaceGo pat rep rest k

/-- Model of Python's `s.replace(pat, rep)` on the character-list view of
`String` (all call sites in the embedded code use non-empty patterns). -/
def strReplace (s pat rep : String) : String :=
  ⟨replaceGo pat.data rep.data s.data 0⟩

/-- Priority rank used by the specification for the claimed stable sort of
interventions: high before medium before low. -/
def priorityRank (p : String) : ℕ :=
  if p = "high" then 0 else if p = "medium" then 1 else 2

/-- The sas-to-stanine rule exactly as the specification words it (midpoint
cut rule, lower-bound cuts): sas ≥ 126 → 9, ≥ 119 → 8, ≥ 112 → 7, ≥ 104 → 6,
≥ 97 → 5, ≥ 89 → 4, ≥ 82 → 3, ≥ 74 → 2, else 1. Stated from the spec text
only, for comparison with the implemented converter. -/
def midpointSasToStanine (sas : ℚ) : ℚ :=
  if 126 ≤ sas then 9 else if 119 ≤ sas then 8 else if 112 ≤ sas then 7
  else if 104 ≤ sas then 6 else if 97 ≤ sas then 5 else if 89 ≤ sas then 4
  else if 82 ≤ sas then 3 else if 74 ≤ sas then 2 else 1

namespace TriEngine

/-- `stanine_to_sas_map.get(n, dflt)`: the fixed stanine → SAS lookup table of
`_stanine_to_sas`, with the call site's default for a missing key. -/
def stanineSasTable (n : ℤ) (dflt : ℚ) : ℚ :=
  if n = 1 then 74 else if n = 2 then 81 else if n = 3 then 88
  else if n = 4 then 96 else if n = 5 then 103 else if n = 6 then 112
  else if n = 7 then 119 else if n = 8 then 127 else if n = 9 then 141
  else dflt

/-- Python's `int(q)`: truncation toward zero. -/
def pyTrunc (q : ℚ) : ℤ := if q < 0 then ⌈q⌉ else ⌊q⌋

/-- `TriangulatedAnalyticsEngine._stanine_to_sas`: table lookup on exact
stanines 1..9, linear interpolation between adjacent table entries for decimal
stanines, clamped to 74 below stanine 1 and to 141 above stanine 9. -/
def stanineToSas (stanine : ℚ) : ℚ :=
  if stanine = 1 then 74 else if stanine = 2 then 81 else if stanine = 3 then 88
  else if stanine = 4 then 96 else if stanine = 5 then 103 else if stanine = 6 then 112
  else if stanine = 7 then 119 else if stanine = 8 then 127 else if stanine = 9 then 141
  else
    let lower : ℤ := pyTrunc stanine
    if lower < 1 then 74
    else if 9 < lower + 1 then 141
    else
      let lowerSas := stanineSasTable lower 74
      let upperSas := stanineSasTable (lower + 1) 141
      lowerSas + (upperSas - lowerSas) * (stanine - (lower : ℚ))

/-- `TriangulatedAnalyticsEngine._sas_to_stanine`: the chain of upper-bound
cuts `sas <= 74 → 1`, `<= 81 → 2`, ..., `<= 127 → 8`, else 9. -/
def sasToStanine (sas : ℚ) : ℚ :=
  if sas ≤ 74 then 1 else if sas ≤ 81 then 2 else if sas ≤ 88 then 3
  else if sas ≤ 96 then 4 else if sas ≤ 103 then 5 else if sas ≤ 112 then 6
  else if sas ≤ 119 then 7 else if sas ≤ 127 then 8 else 9

/-- PASS classification of `_analyze_pass_data`: `percentile >= 65` strength,
`>= 45` balanced, else at-risk (thresholds from `self.pass_thresholds`). -/
def classifyPass (percentile : ℚ) : String :=
  if 65 ≤ percentile then "strength"
  else if 45 ≤ percentile then "balanced"
  else "at-risk"

/-- CAT4 classification of `_analyze_cat4_data` on the converted SAS:
`sas > 110` strength, `sas >= 90` balanced, else weakness (thresholds from
`self.cat4_thresholds`). -/
def classifyCat4 (sas : ℚ) : String :=
  if 110 < sas then "strength"
  else if 90 ≤ sas then "balanced"
  else "weakness"

/-- Academic classification of `_analyze_academic_data`: `stanine >= 7`
strength, `>= 4` balanced, else weakness (from `self.academic_thresholds`). -/
def classifyAcademic (stanine : ℚ) : String :=
  if 7 ≤ stanine then "strength"
  else if 4 ≤ stanine then "balanced"
  else "weakness"

/-- `self.pass_p_mapping.get(name, 'Unknown')`. -/
def passPMapping (name : String) : String :=
  if name = "Perceived Learning Capability" then "P1"
  else if name = "Confidence in Learning" then "P2"
  else if name = "Self-regard as a Learner" then "P3"
  else if name = "Attitudes to Teachers" then "P4"
  else if name = "Response to Curriculum" then "P5"
  else if name = "General Work Ethic" then "P6"
  else if name = "Preparedness for Learning" then "P7"
  else if name = "Attitudes to Attendance" then "P8"
  else if name = "Feelings about School" then "P9"
  else "Unknown"

/-- Raw PASS factor of a PASS assessment (name and percentile). -/
structure PassFactor where
  name : String
  percentile : ℚ
deriving DecidableEq

/-- Raw CAT4 domain of a CAT4 assessment (name and stanine). -/
structure Cat4Domain where
  name : String
  stanine : ℚ
deriving DecidableEq

/-- Raw academic subject (name and internal stanine). -/
structure Subject where
  name : String
  internalStanine : ℚ
deriving DecidableEq

/-- Entry of the `factors` list built by `_analyze_pass_data`. -/
structure PassFactorOut where
  name : String
  percentile : ℚ
  level : String
  pNumber : String
deriving DecidableEq

/-- Entry of `riskAreas` / `strengthAreas` built by `_analyze_pass_data`. -/
structure PassArea where
  factor : String
  percentile : ℚ
  level : String
deriving DecidableEq

/-- Result dict of `_analyze_pass_data` (fields used by later stages). -/
structure PassAnalysis where
  available : Bool
  factors : List PassFactorOut
  riskAreas : List PassArea
  strengthAreas : List PassArea
deriving DecidableEq

/-- Loop body of `_analyze_pass_data`: classify one factor and append it to
the `factors` list and, by level, to the risk or strength list. -/
def passStep (acc : List PassFactorOut × List PassArea × List PassArea) (f : PassFactor) :
    List PassFactorOut × List PassArea × List PassArea :=
  let level := classifyPass f.percentile
  let risks := if level = "at-risk" then acc.2.1 ++ [⟨f.name, f.percentile, "at-risk"⟩] else acc.2.1
  let strengths :=
    if level = "strength" then acc.2.2 ++ [⟨f.name, f.percentile, "strength"⟩] else acc.2.2
  (acc.1 ++ [⟨f.name, f.percentile, level, passPMapping f.name⟩], risks, strengths)

/-- `TriangulatedAnalyticsEngine._analyze_pass_data`: unavailable on an empty
factor list, otherwise one pass over the factors in order. -/
def analyzePass (factors : List PassFactor) : PassAnalysis :=
  if factors.isEmpty then ⟨false, [], [], []⟩
  else
    let r := factors.foldl passStep ([], [], [])
    ⟨true, r.1, r.2.1, r.2.2⟩

/-- Entry of the `domains` list built by `_analyze_cat4_data`. -/
structure Cat4DomainOut where
  name : String
  stanine : ℚ
  sas : ℚ
  level : String
deriving DecidableEq

/-- Entry of `weaknessAreas` / `strengthAreas` built by `_analyze_cat4_data`. -/
structure Cat4Area where
  domain : String
  sas : ℚ
  stanine : ℚ
  level : String
deriving DecidableEq

/-- Result dict of `_analyze_cat4_data` (fields used by later stages). -/
structure Cat4Analysis where
  available : Bool
  domains : List Cat4DomainOut
  weaknessAreas : List Cat4Area
  strengthAreas : List Cat4Area
  isFragileLearner : Bool
  fragileFlags : ℕ
deriving DecidableEq

/-- Loop body of `_analyze_cat4_data`: convert the stanine to SAS, classify,
append to the domain list and by level to the weakness or strength list,
counting weakness domains in `fragile_flags`. -/
def cat4Step (acc : List Cat4DomainOut × List Cat4Area × List Cat4Area × ℕ) (d : Cat4Domain) :
    List Cat4DomainOut × List Cat4Area × List Cat4Area × ℕ :=
  let sas := stanineToSas d.stanine
  let level := classifyCat4 sas
  let weaknesses :=
    if level = "weakness" then acc.2.1 ++ [⟨d.name, sas, d.stanine, "weakness"⟩] else acc.2.1
  let strengths :=
    if level = "strength" then acc.2.2.1 ++ [⟨d.name, sas, d.stanine, "strength"⟩] else acc.2.2.1
  let flags := if level = "weakness" then acc.2.2.2 + 1 else acc.2.2.2
  (acc.1 ++ [⟨d.name, d.stanine, sas, level⟩], weaknesses, strengths, flags)

/-- `TriangulatedAnalyticsEngine._analyze_cat4_data`: unavailable on an empty
domain list, otherwise one pass over the domains; `is_fragile_learner` is
`fragile_flags >= 2`. -/
def analyzeCat4 (domains : List Cat4Domain) : Cat4Analysis :=
  if domains.isEmpty then ⟨false, [], [], [], false, 0⟩
  else
    let r := domains.foldl cat4Step ([], [], [], 0)
    ⟨true, r.1, r.2.1, r.2.2.1, decide (2 ≤ r.2.2.2), r.2.2.2⟩

/-- Entry of the `subjects` list built by `_analyze_academic_data`. -/
structure SubjectOut where
  name : String
  stanine : ℚ
  level : String
deriving DecidableEq

/-- Entry of `weaknessAreas` / `strengthAreas` built by
`_analyze_academic_data`. -/
structure AcademicArea where
  subject : String
  stanine : ℚ
  level : String
deriving DecidableEq

/-- Result dict of `_analyze_academic_data` (fields used by later stages). -/
structure AcademicAnalysis where
  available : Bool
  subjects : List SubjectOut
  weaknessAreas : List AcademicArea
  strengthAreas : List AcademicArea
deriving DecidableEq

/-- Loop body of `_analyze_academic_data`. -/
def academicStep (acc : List SubjectOut × List AcademicArea × List AcademicArea) (s : Subject) :
    List SubjectOut × List AcademicArea × List AcademicArea :=
  let stanine := s.internalStanine
  let level := classifyAcademic stanine
  let weaknesses :=
    if level = "weakness" then acc.2.1 ++ [⟨s.name, stanine, "weakness"⟩] else acc.2.1
  let strengths :=
    if level = "strength" then acc.2.2 ++ [⟨s.name, stanine, "strength"⟩] else acc.2.2
  (acc.1 ++ [⟨s.name, stanine, level⟩], weaknesses, strengths)

/-- `TriangulatedAnalyticsEngine._analyze_academic_data`: unavailable on an
empty subject list, otherwise one pass over the subjects. -/
def analyzeAcademic (subjects : List Subject) : AcademicAnalysis :=
  if subjects.isEmpty then ⟨false, [], [], []⟩
  else
    let r := subjects.foldl academicStep ([], [], [])
    ⟨true, r.1, r.2.1, r.2.2⟩

/-- `TriangulatedAnalyticsEngine._determine_fragile_learner`: false when the
CAT4 analysis is unavailable, otherwise `fragile_flags >= 2`. -/
def determineFragileLearner (ca : Cat4Analysis) : Bool :=
  if !ca.available then false else decide (2 ≤ ca.fragileFlags)

/-- Entry of `top_strengths` / `top_weaknesses` in the triangulated summary:
domain tag, factor name, raw score, and descriptive type. -/
structure SummaryEntry where
  domain : String
  factor : String
  score : ℚ
  entryType : String
deriving DecidableEq

/-- Strength collection phase of `_generate_triangulated_summary`: every
strength-level entry of the three available analyses, tagged with its domain
and raw score (PASS percentile, CAT4 SAS, academic stanine), in PASS, CAT4,
Academic order. -/
def collectStrengths (pa : PassAnalysis) (ca : Cat4Analysis) (aa : AcademicAnalysis) :
    List SummaryEntry :=
  (if pa.available then
      pa.strengthAreas.map (fun s => ⟨"PASS", s.factor, s.percentile, "Attitudinal Strength"⟩)
    else [])
    ++ ((if ca.available then
      ca.strengthAreas.map (fun s => ⟨"CAT4", s.domain, s.sas, "Cognitive Strength"⟩)
    else [])
    ++ (if aa.available then
      aa.strengthAreas.map (fun s => ⟨"Academic", s.subject, s.stanine, "Academic Strength"⟩)
    else []))

/-- Weakness collection phase of `_generate_triangulated_summary`. -/
def collectWeaknesses (pa : PassAnalysis) (ca : Cat4Analysis) (aa : AcademicAnalysis) :
    List SummaryEntry :=
  (if pa.available then
      pa.riskAreas.map (fun r => ⟨"PASS", r.factor, r.percentile, "Attitudinal Risk"⟩)
    else [])
    ++ ((if ca.available then
      ca.weaknessAreas.map (fun w => ⟨"CAT4", w.domain, w.sas, "Cognitive Weakness"⟩)
    else [])
    ++ (if aa.available then
      aa.weaknessAreas.map (fun w => ⟨"Academic", w.subject, w.stanine, "Academic Weakness"⟩)
    else []))

/-- Comparator of Python's stable `sorted(key=score, reverse=True)`: `a` may
come before `b` iff `b.score ≤ a.score`. -/
def scoreDescBefore (a b : SummaryEntry) : Bool := decide (b.score ≤ a.score)

/-- Comparator of Python's stable `sorted(key=score)`. -/
def scoreAscBefore (a b : SummaryEntry) : Bool := decide (a.score ≤ b.score)

/-- The triangulated summary (`top_strengths`, `top_weaknesses`). -/
structure Summary where
  topStrengths : List SummaryEntry
  topWeaknesses : List SummaryEntry
deriving DecidableEq

/-- `TriangulatedAnalyticsEngine._generate_triangulated_summary`: collect,
stable-sort by raw score (descending for strengths, ascending for
weaknesses) and truncate to the first 5. -/
def generateTriangulatedSummary (pa : PassAnalysis) (ca : Cat4Analysis)
    (aa : AcademicAnalysis) : Summary :=
  ⟨((collectStrengths pa ca aa).mergeSort scoreDescBefore).take 5,
   ((collectWeaknesses pa ca aa).mergeSort scoreAscBefore).take 5⟩

/-- Intervention record of `_generate_interventions`. -/
structure Intervention where
  trigger : String
  domain : String
  intervention : String
  priority : String
  description : String
deriving DecidableEq

/-- PASS branch of `_generate_interventions` for one risk area: the P-number
of the factor selects the intervention template (P3/P7 emotional, P4/P6 and
P5/P8 behavioral); other P-numbers produce nothing. -/
def passRiskInterventions (r : PassArea) : List Intervention :=
  let p := passPMapping r.factor
  if p = "P3" ∨ p = "P7" then
    [⟨"PASS " ++ p ++ " at risk", "emotional", "Self-esteem/confidence building", "high",
      "Implement confidence-building activities and positive reinforcement strategies"⟩]
  else if p = "P4" ∨ p = "P6" then
    [⟨"PASS " ++ p ++ " at risk", "behavioral", "Time management / Organization skills", "high",
      "Provide structured support for organization and work habits"⟩]
  else if p = "P5" ∨ p = "P8" then
    [⟨"PASS " ++ p ++ " at risk", "behavioral", "Attendance and engagement mentoring", "high",
      "Implement engagement strategies and attendance monitoring"⟩]
  else []

/-- CAT4 branch of `_generate_interventions` for one weakness area. -/
def cat4WeaknessInterventions (w : Cat4Area) : List Intervention :=
  if w.domain = "Verbal" ∧ w.sas < 90 then
    [⟨"CAT4 Verbal SAS < 90", "cognitive", "Verbal reasoning / reading boosters", "high",
      "Implement targeted verbal reasoning and reading comprehension support"⟩]
  else []

/-- The fragile-learner record `_generate_interventions` appends when
`is_fragile_learner` is true. -/
def fragileIntervention : Intervention :=
  ⟨"Fragile learner = Yes", "holistic", "Holistic learning support", "critical",
    "Comprehensive multi-domain support addressing cognitive and attitudinal factors"⟩

/-- Academic branch of `_generate_interventions` for one weakness area. -/
def academicWeaknessIntervention (w : AcademicArea) : Intervention :=
  ⟨"Academic subject = Weak (" ++ w.subject ++ ")", "academic",
    "Subject-specific booster modules - " ++ w.subject, "medium",
    "Targeted support for " ++ w.subject ++ " to address foundational gaps"⟩

/-- `TriangulatedAnalyticsEngine._generate_interventions`: append PASS risk
records, then CAT4 weakness records, then the fragile-learner record, then
academic weakness records, in input order; no sorting. -/
def generateInterventions (pa : PassAnalysis) (ca : Cat4Analysis) (aa : AcademicAnalysis)
    (isFragile : Bool) : List Intervention :=
  let i0 : List Intervention := []
  let i1 :=
    if pa.available then pa.riskAreas.foldl (fun acc r => acc ++ passRiskInterventions r) i0
    else i0
  let i2 :=
    if ca.available then ca.weaknessAreas.foldl (fun acc w => acc ++ cat4WeaknessInterventions w) i1
    else i1
  let i3 := if isFragile then i2 ++ [fragileIntervention] else i2
  if aa.available then aa.weaknessAreas.foldl (fun acc w => acc ++ [academicWeaknessIntervention w]) i3
  else i3

end TriEngine

namespace FixCat4

/-- `fix_cat4_domains.sas_to_stanine`: the same chain of upper-bound cuts as
the triangulated engine's `_sas_to_stanine`. -/
def sasToStanine (sas : ℚ) : ℚ :=
  if sas ≤ 74 then 1 else if sas ≤ 81 then 2 else if sas ≤ 88 then 3
  else if sas ≤ 96 then 4 else if sas ≤ 103 then 5 else if sas ≤ 112 then 6
  else if sas ≤ 119 then 7 else if sas ≤ 127 then 8 else 9

end FixCat4

namespace SAEngine

/-- Raw PASS factor as stored with a PASS assessment. -/
structure PassFactor where
  name : String
  percentile : ℚ
deriving DecidableEq

/-- PASS assessment: the factor rows of a student. -/
structure PassAssessment where
  factors : List PassFactor
deriving DecidableEq

/-- Raw CAT4 domain as stored with a CAT4 assessment. -/
structure Cat4Domain where
  name : String
  stanine : ℚ
deriving DecidableEq

/-- CAT4 assessment: the domain rows of a student. -/
structure Cat4Assessment where
  domains : List Cat4Domain
deriving DecidableEq

/-- Raw academic subject row (stanine and derived percentile). -/
structure Subject where
  name : String
  stanine : ℚ
  percentile : ℚ
deriving DecidableEq

/-- Academic assessment: the subject rows of one term. -/
structure AcademicAssessment where
  subjects : List Subject
deriving DecidableEq

/-- Level rule of `_format_pass_factors` / `_identify_pass_risks`:
`percentile < 45` at-risk, `>= 65` strength, else balanced. -/
def passLevel (percentile : ℚ) : String :=
  if percentile < 45 then "at-risk" else if 65 ≤ percentile then "strength" else "balanced"

/-- Level rule of `_format_cat4_domains` / `_identify_cat4_weaknesses`:
`stanine <= 3` weakness, `>= 7` strength, else balanced. -/
def cat4Level (stanine : ℚ) : String :=
  if stanine ≤ 3 then "weakness" else if 7 ≤ stanine then "strength" else "balanced"

/-- Level rule of `_format_academic_subjects`: same shape as `cat4Level`. -/
def academicLevel (stanine : ℚ) : String :=
  if stanine ≤ 3 then "weakness" else if 7 ≤ stanine then "strength" else "balanced"

/-- Entry of the formatted PASS factor list. -/
structure PassFactorOut where
  name : String
  percentile : ℚ
  level : String
deriving DecidableEq

/-- Entry of the PASS `riskAreas` list. -/
structure PassRiskArea where
  factor : String
  percentile : ℚ
  level : String
deriving DecidableEq

/-- The `pass_analysis` dict `process_student` builds. -/
structure PassAnalysis where
  available : Bool
  factors : List PassFactorOut
  riskAreas : List PassRiskArea
  strengthAreas : List PassRiskArea
deriving DecidableEq

/-- `StudentAnalyticsEngine._format_pass_factors`: classify each factor and
replace underscores in its name by spaces. -/
def formatPassFactors (a : PassAssessment) : List PassFactorOut :=
  a.factors.map (fun f => ⟨strReplace f.name "_" " ", f.percentile, passLevel f.percentile⟩)

/-- `StudentAnalyticsEngine._identify_pass_risks`: append each factor with
`percentile < 45`, in input order. -/
def identifyPassRisks (a : PassAssessment) : List PassRiskArea :=
  a.factors.foldl
    (fun acc f =>
      if f.percentile < 45 then acc ++ [⟨strReplace f.name "_" " ", f.percentile, "at-risk"⟩]
      else acc)
    []

/-- The `pass_analysis` construction inside `process_student`: available iff
a PASS assessment exists; `strengthAreas` is the literal empty list. -/
def processPassAnalysis (o : Option PassAssessment) : PassAnalysis :=
  match o with
  | none => ⟨false, [], [], []⟩
  | some a => ⟨true, formatPassFactors a, identifyPassRisks a, []⟩

/-- Entry of the formatted CAT4 domain list. -/
structure Cat4DomainOut where
  name : String
  stanine : ℚ
  level : String
deriving DecidableEq

/-- Entry of the CAT4 `weaknessAreas` list. -/
structure Cat4WeaknessArea where
  domain : String
  stanine : ℚ
  level : String
deriving DecidableEq

/-- The `cat4_analysis` dict `process_student` builds. -/
structure Cat4Analysis where
  available : Bool
  domains : List Cat4DomainOut
  weaknessAreas : List Cat4WeaknessArea
  strengthAreas : List Cat4WeaknessArea
  isFragileLearner : Bool
deriving DecidableEq

/-- `StudentAnalyticsEngine._format_cat4_domains`. -/
def formatCat4Domains (a : Cat4Assessment) : List Cat4DomainOut :=
  a.domains.map (fun d => ⟨strReplace d.name "_" " ", d.stanine, cat4Level d.stanine⟩)

/-- `StudentAnalyticsEngine._identify_cat4_weaknesses`: append each domain
with `stanine <= 3`, in input order. -/
def identifyCat4Weaknesses (a : Cat4Assessment) : List Cat4WeaknessArea :=
  a.domains.foldl
    (fun acc d =>
      if d.stanine ≤ 3 then acc ++ [⟨strReplace d.name "_" " ", d.stanine, "weakness"⟩]
      else acc)
    []

/-- The `cat4_analysis` construction inside `process_student`: available iff
a CAT4 assessment exists; `strengthAreas` is the literal empty list; the
fragile flag is copied from the student database row. -/
def processCat4Analysis (o : Option Cat4Assessment) (isFragileDb : Bool) : Cat4Analysis :=
  match o with
  | none => ⟨false, [], [], [], false⟩
  | some a => ⟨true, formatCat4Domains a, identifyCat4Weaknesses a, [], isFragileDb⟩

/-- Entry of the formatted academic subject list. -/
structure SubjectOut where
  name : String
  stanine : ℚ
  level : String
  percentile : ℚ
deriving DecidableEq

/-- The `academic_analysis` dict `process_student` builds. -/
structure AcademicAnalysis where
  available : Bool
  subjects : List SubjectOut
deriving DecidableEq

/-- `StudentAnalyticsEngine._format_academic_subjects`: all subject rows of
all assessments, classified, in input order. -/
def formatAcademicSubjects (assessments : List AcademicAssessment) : List SubjectOut :=
  assessments.foldl
    (fun acc a =>
      acc ++ a.subjects.map (fun s => ⟨s.name, s.stanine, academicLevel s.stanine, s.percentile⟩))
    []

/-- The `academic_analysis` construction inside `process_student`: available
iff the assessment list is non-empty. -/
def processAcademicAnalysis (assessments : List AcademicAssessment) : AcademicAnalysis :=
  if assessments.isEmpty then ⟨false, []⟩
  else ⟨true, formatAcademicSubjects assessments⟩

/-- Intervention template (title, description, priority) of the static
strategy tables built by `_init_intervention_mappings`. -/
structure Template where
  title : String
  description : String
  priority : String
deriving DecidableEq

/-- `self.emotional_interventions[factor][level]` (empty list when either key
is absent). -/
def emotionalInterventions (factor level : String) : List Template :=
  if factor = "Self_Regard" then
    if level = "At Risk" then
      [⟨"Self-Esteem Building",
        "Weekly sessions with counselor focusing on identifying and celebrating strengths. Include positive affirmation activities and reflective journaling.",
        "high"⟩,
       ⟨"Success Portfolio",
        "Create a digital or physical portfolio where student can document and reflect on achievements, no matter how small.",
        "medium"⟩]
    else if level = "Balanced" then
      [⟨"Strength Recognition",
        "Monthly check-in with advisor to acknowledge and reinforce positive self-image through specific examples.",
        "medium"⟩]
    else []
  else if factor = "Attitude_Teachers" then
    if level = "At Risk" then
      [⟨"Teacher-Student Mediation",
        "Facilitated discussion between student and teachers to address concerns and establish mutual respect and understanding.",
        "high"⟩]
    else []
  else if factor = "General_Work_Ethic" then
    if level = "At Risk" then
      [⟨"Academic Coaching",
        "Weekly sessions to develop organizational skills, time management, and task prioritization strategies.",
        "high"⟩]
    else []
  else if factor = "Emotional_Control" then
    if level = "At Risk" then
      [⟨"Emotional Regulation Therapy",
        "Counselor-led sessions focused on identifying emotional triggers and developing healthy coping mechanisms.",
        "high"⟩]
    else []
  else []

/-- `self.cognitive_interventions[domain][level]` (empty list when either key
is absent). -/
def cognitiveInterventions (domain level : String) : List Template :=
  if domain = "Verbal_Reasoning" then
    if level = "Weakness" then
      [⟨"Verbal Skills Development",
        "Explicit instruction in vocabulary development, reading comprehension strategies, and verbal expression.",
        "high"⟩]
    else []
  else if domain = "Quantitative_Reasoning" then
    if level = "Weakness" then
      [⟨"Numeracy Intervention",
        "Targeted support for numerical operations, mathematical vocabulary, and quantitative problem-solving.",
        "high"⟩]
    else []
  else if domain = "Fragile_Learner" then
    if level = "Yes" then
      [⟨"Comprehensive Learning Support",
        "Multi-faceted approach combining cognitive scaffolding, additional processing time, and alternative assessment options.",
        "high"⟩]
    else []
  else []

/-- `self.academic_interventions[level]` (empty list when the key is absent). -/
def academicInterventions (level : String) : List Template :=
  if level = "Weakness" then
    [⟨"Targeted Tutoring",
      "Subject-specific tutoring focusing on foundational skills and knowledge gaps identified through assessment.",
      "high"⟩]
  else []

/-- Intervention record of `generateInterventions`. -/
structure Intervention where
  domain : String
  factor : String
  title : String
  description : String
  priority : String
deriving DecidableEq

/-- PASS branch of `generateInterventions` for one risk area: look the factor
name (spaces back to underscores) up in the emotional table at level
`At Risk`. -/
def passRiskRecords (r : PassRiskArea) : List Intervention :=
  (emotionalInterventions (strReplace r.factor " " "_") "At Risk").map
    (fun t => ⟨"emotional", r.factor, t.title, t.description, t.priority⟩)

/-- CAT4 branch of `generateInterventions` for one weakness area. -/
def cat4WeaknessRecords (w : Cat4WeaknessArea) : List Intervention :=
  (cognitiveInterventions (strReplace w.domain " " "_") "Weakness").map
    (fun t => ⟨"cognitive", w.domain, t.title, t.description, t.priority⟩)

/-- Fragile-learner branch of `generateInterventions`: the holistic records
from the cognitive table's `Fragile_Learner / Yes` entry. -/
def fragileRecords : List Intervention :=
  (cognitiveInterventions "Fragile_Learner" "Yes").map
    (fun t => ⟨"holistic", "Fragile Learner", t.title, t.description, t.priority⟩)

/-- Academic branch of `generateInterventions` for one weakness-level
subject: the generic tutoring template parameterised by the subject name. -/
def academicSubjectRecords (s : SubjectOut) : List Intervention :=
  (academicInterventions "Weakness").map
    (fun t => ⟨"academic", s.name ++ " Performance", s.name ++ " " ++ t.title,
      strReplace t.description "Subject" s.name, t.priority⟩)

/-- `StudentAnalyticsEngine.generateInterventions`: append PASS risk records,
then (when the CAT4 analysis is available) CAT4 weakness records and, when
the fragile flag is set, the fragile-learner records, then academic records
for weakness-level subjects, in input order; no sorting. -/
def generateInterventions (pa : PassAnalysis) (ca : Cat4Analysis) (aa : AcademicAnalysis)
    (isFragile : Bool) : List Intervention :=
  let i0 : List Intervention := []
  let i1 :=
    if pa.available then pa.riskAreas.foldl (fun acc r => acc ++ passRiskRecords r) i0
    else i0
  let i2 :=
    if ca.available then
      let j := ca.weaknessAreas.foldl (fun acc w => acc ++ cat4WeaknessRecords w) i1
      if isFragile then j ++ fragileRecords else j
    else i1
  if aa.available then
    aa.subjects.foldl
      (fun acc s => if s.level = "weakness" then acc ++ academicSubjectRecords s else acc) i2
  else i2

end SAEngine

/-- Accumulating a list-valued function over a fold is appending its
`flatMap`: the generic shape of the Python append loops. -/
theorem foldl_append_flatMap {α β : Type} (g : α → List β) :
    ∀ (l : List α) (acc : List β),
      l.foldl (fun a x => a ++ g x) acc = acc ++ l.flatMap g := by
  intro l
  induction l with
  | nil => intro acc; simp
  | cons x xs ih => intro acc; simp [List.foldl_cons, ih]

/-- A conditional append loop accumulates the `flatMap` over the filtered
list. -/
theorem foldl_ite_append_flatMap {α β : Type} (p : α → Prop) [DecidablePred p]
    (g : α → List β) :
    ∀ (l : List α) (acc : List β),
      l.foldl (fun a x => if p x then a ++ g x else a) acc =
        acc ++ (l.filter (fun x => decide (p x))).flatMap g := by
  intro l
  induction l with
  | nil => intro acc; simp
  | cons x xs ih =>
    intro acc
    by_cases hp : p x <;> simp [List.foldl_cons, List.filter_cons, hp, ih]

namespace TriEngine

/-- The `factors` list `_analyze_pass_data` accumulates, as a map. -/
def passOutsList (l : List PassFactor) : List PassFactorOut :=
  l.map (fun f => ⟨f.name, f.percentile, classifyPass f.percentile, passPMapping f.name⟩)

/-- The `risk_areas` list `_analyze_pass_data` accumulates: exactly the
at-risk-level factors, in evaluation order. -/
def passRiskList (l : List PassFactor) : List PassArea :=
  (l.filter (fun f => decide (classifyPass f.percentile = "at-risk"))).map
    (fun f => ⟨f.name, f.percentile, "at-risk"⟩)

/-- The `strength_areas` list `_analyze_pass_data` accumulates: exactly the
strength-level factors, in evaluation order. -/
def passStrengthList (l : List PassFactor) : List PassArea :=
  (l.filter (fun f => decide (classifyPass f.percentile = "strength"))).map
    (fun f => ⟨f.name, f.percentile, "strength"⟩)

theorem passStep_foldl :
    ∀ (l : List PassFactor) (o : List PassFactorOut) (r s : List PassArea),
      l.foldl passStep (o, r, s) =
        (o ++ passOutsList l, r ++ passRiskList l, s ++ passStrengthList l) := by
  intro l
  induction l with
  | nil => intro o r s; simp [passOutsList, passRiskList, passStrengthList]
  | cons f fs ih =>
    intro o r s
    rw [List.foldl_cons]
    show List.foldl passStep
      (o ++ [⟨f.name, f.percentile, classifyPass f.percentile, passPMapping f.name⟩],
        _, _) fs = _
    rw [ih]
    by_cases h1 : classifyPass f.percentile = "at-risk" <;>
      by_cases h2 : classifyPass f.percentile = "strength" <;>
      simp_all [passOutsList, passRiskList, passStrengthList, List.filter_cons]

theorem analyzePass_factors (l : List PassFactor) :
    (analyzePass l).factors = passOutsList l := by
  by_cases h : l.isEmpty
  · rw [List.isEmpty_iff.mp h]; simp [analyzePass, passOutsList]
  · have hfold := passStep_foldl l [] [] []
    simp [analyzePass, h, hfold]

theorem analyzePass_riskAreas (l : List PassFactor) :
    (analyzePass l).riskAreas = passRiskList l := by
  by_cases h : l.isEmpty
  · rw [List.isEmpty_iff.mp h]; simp [analyzePass, passRiskList]
  · have hfold := passStep_foldl l [] [] []
    simp [analyzePass, h, hfold]

theorem analyzePass_strengthAreas (l : List PassFactor) :
    (analyzePass l).strengthAreas = passStrengthList l := by
  by_cases h : l.isEmpty
  · rw [List.isEmpty_iff.mp h]; simp [analyzePass, passStrengthList]
  · have hfold := passStep_foldl l [] [] []
    simp [analyzePass, h, hfold]

/-- The `domains` list `_analyze_cat4_data` accumulates, as a map. -/
def cat4DomainsList (l : List Cat4Domain) : List Cat4DomainOut :=
  l.map (fun d =>
    ⟨d.name, d.stanine, stanineToSas d.stanine, classifyCat4 (stanineToSas d.stanine)⟩)

/-- The `weakness_areas` list `_analyze_cat4_data` accumulates. -/
def cat4WeakList (l : List Cat4Domain) : List Cat4Area :=
  (l.filter (fun d => decide (classifyCat4 (stanineToSas d.stanine) = "weakness"))).map
    (fun d => ⟨d.name, stanineToSas d.stanine, d.stanine, "weakness"⟩)

/-- The `strength_areas` list `_analyze_cat4_data` accumulates. -/
def cat4StrengthList (l : List Cat4Domain) : List Cat4Area :=
  (l.filter (fun d => decide (classifyCat4 (stanineToSas d.stanine) = "strength"))).map
    (fun d => ⟨d.name, stanineToSas d.stanine, d.stanine, "strength"⟩)

/-- The weakness count `fragile_flags` of `_analyze_cat4_data`. -/
def cat4WeakCount (l : List Cat4Domain) : ℕ :=
  (l.filter (fun d => decide (classifyCat4 (stanineToSas d.stanine) = "weakness"))).length

theorem cat4Step_foldl :
    ∀ (l : List Cat4Domain) (o : List Cat4DomainOut) (w s : List Cat4Area) (n : ℕ),
      l.foldl cat4Step (o, w, s, n) =
        (o ++ cat4DomainsList l, w ++ cat4WeakList l, s ++ cat4StrengthList l,
          n + cat4WeakCount l) := by
  intro l
  induction l with
  | nil => intro o w s n; simp [cat4DomainsList, cat4WeakList, cat4StrengthList, cat4WeakCount]
  | cons d ds ih =>
    intro o w s n
    rw [List.foldl_cons]
    show List.foldl cat4Step
      (o ++ [⟨d.name, d.stanine, stanineToSas d.stanine, classifyCat4 (stanineToSas d.stanine)⟩],
        _, _, _) ds = _
    rw [ih]
    by_cases h1 : classifyCat4 (stanineToSas d.stanine) = "weakness" <;>
      by_cases h2 : classifyCat4 (stanineToSas d.stanine) = "strength" <;>
      simp_all [cat4DomainsList, cat4WeakList, cat4StrengthList, cat4WeakCount,
        List.filter_cons] <;> omega

theorem analyzeCat4_domains (l : List Cat4Domain) :
    (analyzeCat4 l).domains = cat4DomainsList l := by
  by_cases h : l.isEmpty
  · rw [List.isEmpty_iff.mp h]; simp [analyzeCat4, cat4DomainsList]
  · have hfold := cat4Step_foldl l [] [] [] 0
    simp [analyzeCat4, h, hfold]

theorem analyzeCat4_weaknessAreas (l : List Cat4Domain) :
    (analyzeCat4 l).weaknessAreas = cat4WeakList l := by
  by_cases h : l.isEmpty
  · rw [List.isEmpty_iff.mp h]; simp [analyzeCat4, cat4WeakList]
  · have hfold := cat4Step_foldl l [] [] [] 0
    simp [analyzeCat4, h, hfold]

theorem analyzeCat4_strengthAreas (l : List Cat4Domain) :
    (analyzeCat4 l).strengthAreas = cat4StrengthList l := by
  by_cases h : l.isEmpty
  · rw [List.isEmpty_iff.mp h]; simp [analyzeCat4, cat4StrengthList]
  · have hfold := cat4Step_foldl l [] [] [] 0
    simp [analyzeCat4, h, hfold]

theorem analyzeCat4_fragileFlags (l : List Cat4Domain) :
    (analyzeCat4 l).fragileFlags = cat4WeakCount l := by
  by_cases h : l.isEmpty
  · rw [List.isEmpty_iff.mp h]; simp [analyzeCat4, cat4WeakCount]
  · have hfold := cat4Step_foldl l [] [] [] 0
    simp [analyzeCat4, h, hfold]

theorem analyzeCat4_available (l : List Cat4Domain) :
    (analyzeCat4 l).available = !l.isEmpty := by
  rcases hl : l with _ | ⟨d, ds⟩ <;> simp [analyzeCat4]

/-- The `subjects` list `_analyze_academic_data` accumulates, as a map. -/
def academicSubjectsList (l : List Subject) : List SubjectOut :=
  l.map (fun s => ⟨s.name, s.internalStanine, classifyAcademic s.internalStanine⟩)

/-- The `weakness_areas` list `_analyze_academic_data` accumulates. -/
def academicWeakList (l : List Subject) : List AcademicArea :=
  (l.filter (fun s => decide (classifyAcademic s.internalStanine = "weakness"))).map
    (fun s => ⟨s.name, s.internalStanine, "weakness"⟩)

/-- The `strength_areas` list `_analyze_academic_data` accumulates. -/
def academicStrengthList (l : List Subject) : List AcademicArea :=
  (l.filter (fun s => decide (classifyAcademic s.internalStanine = "strength"))).map
    (fun s => ⟨s.name, s.internalStanine, "strength"⟩)

theorem academicStep_foldl :
    ∀ (l : List Subject) (o : List SubjectOut) (w s : List AcademicArea),
      l.foldl academicStep (o, w, s) =
        (o ++ academicSubjectsList l, w ++ academicWeakList l, s ++ academicStrengthList l) := by
  intro l
  induction l with
  | nil => intro o w s; simp [academicSubjectsList, academicWeakList, academicStrengthList]
  | cons x xs ih =>
    intro o w s
    rw [List.foldl_cons]
    show List.foldl academicStep
      (o ++ [⟨x.name, x.internalStanine, classifyAcademic x.internalStanine⟩], _, _) xs = _
    rw [ih]
    by_cases h1 : classifyAcademic x.internalStanine = "weakness" <;>
      by_cases h2 : classifyAcademic x.internalStanine = "strength" <;>
      simp_all [academicSubjectsList, academicWeakList, academicStrengthList, List.filter_cons]

theorem analyzeAcademic_subjects (l : List Subject) :
    (analyzeAcademic l).subjects = academicSubjectsList l := by
  by_cases h : l.isEmpty
  · rw [List.isEmpty_iff.mp h]; simp [analyzeAcademic, academicSubjectsList]
  · have hfold := academicStep_foldl l [] [] []
    simp [analyzeAcademic, h, hfold]

theorem analyzeAcademic_weaknessAreas (l : List Subject) :
    (analyzeAcademic l).weaknessAreas = academicWeakList l := by
  by_cases h : l.isEmpty
  · rw [List.isEmpty_iff.mp h]; simp [analyzeAcademic, academicWeakList]
  · have hfold := academicStep_foldl l [] [] []
    simp [analyzeAcademic, h, hfold]

theorem analyzeAcademic_strengthAreas (l : List Subject) :
    (analyzeAcademic l).strengthAreas = academicStrengthList l := by
  by_cases h : l.isEmpty
  · rw [List.isEmpty_iff.mp h]; simp [analyzeAcademic, academicStrengthList]
  · have hfold := academicStep_foldl l [] [] []
    simp [analyzeAcademic, h, hfold]

end TriEngine

/-- Flat-mapping singletons is mapping. -/
theorem flatMap_singleton_eq_map {α β : Type} (f : α → β) (l : List α) :
    (l.flatMap fun x => [f x]) = l.map f := by
  induction l <;> simp_all

namespace SAEngine

/-- The risk list `_identify_pass_risks` accumulates: exactly the factors
with `percentile < 45`, in evaluation order. -/
def passRisksOf (a : PassAssessment) : List PassRiskArea :=
  (a.factors.filter (fun f => decide (f.percentile < 45))).map
    (fun f => ⟨strReplace f.name "_" " ", f.percentile, "at-risk"⟩)

/-- The weakness list `_identify_cat4_weaknesses` accumulates: exactly the
domains with `stanine <= 3`, in evaluation order. -/
def cat4WeaknessesOf (a : Cat4Assessment) : List Cat4WeaknessArea :=
  (a.domains.filter (fun d => decide (d.stanine ≤ 3))).map
    (fun d => ⟨strReplace d.name "_" " ", d.stanine, "weakness"⟩)

theorem identifyPassRisks_eq (a : PassAssessment) :
    identifyPassRisks a = passRisksOf a := by
  have h := foldl_ite_append_flatMap (fun f : PassFactor => f.percentile < 45)
    (fun f => [(⟨strReplace f.name "_" " ", f.percentile, "at-risk"⟩ : PassRiskArea)])
    a.factors []
  refine h.trans ?_
  simp [passRisksOf, flatMap_singleton_eq_map]

theorem identifyCat4Weaknesses_eq (a : Cat4Assessment) :
    identifyCat4Weaknesses a = cat4WeaknessesOf a := by
  have h := foldl_ite_append_flatMap (fun d : Cat4Domain => d.stanine ≤ 3)
    (fun d => [(⟨strReplace d.name "_" " ", d.stanine, "weakness"⟩ : Cat4WeaknessArea)])
    a.domains []
  refine h.trans ?_
  simp [cat4WeaknessesOf, flatMap_singleton_eq_map]

theorem passRecords_foldl (l : List PassRiskArea) (acc : List Intervention) :
    l.foldl (fun acc r => acc ++ passRiskRecords r) acc = acc ++ l.flatMap passRiskRecords :=
  foldl_append_flatMap passRiskRecords l acc

theorem cat4Records_foldl (l : List Cat4WeaknessArea) (acc : List Intervention) :
    l.foldl (fun acc w => acc ++ cat4WeaknessRecords w) acc =
      acc ++ l.flatMap cat4WeaknessRecords :=
  foldl_append_flatMap cat4WeaknessRecords l acc

theorem academicRecords_foldl (l : List SubjectOut) (acc : List Intervention) :
    l.foldl (fun acc s => if s.level = "weakness" then acc ++ academicSubjectRecords s else acc)
        acc =
      acc ++ (l.filter (fun s => decide (s.level = "weakness"))).flatMap academicSubjectRecords :=
  foldl_ite_append_flatMap (fun s : SubjectOut => s.level = "weakness")
    academicSubjectRecords l acc

/-- `StudentAnalyticsEngine.generateInterventions` is the concatenation of
its four generation blocks, in order: PASS risk records, CAT4 weakness
records, the fragile-learner records, academic weakness-subject records. -/
theorem saGenerateInterventions_eq (pa : PassAnalysis) (ca : Cat4Analysis)
    (aa : AcademicAnalysis) (isFragile : Bool) :
    generateInterventions pa ca aa isFragile =
      (if pa.available then pa.riskAreas.flatMap passRiskRecords else [])
        ++ ((if ca.available then ca.weaknessAreas.flatMap cat4WeaknessRecords else [])
        ++ ((if ca.available then (if isFragile then fragileRecords else []) else [])
        ++ (if aa.available then
              (aa.subjects.filter (fun s => decide (s.level = "weakness"))).flatMap
                academicSubjectRecords
            else []))) := by
  unfold generateInterventions
  rcases hpa : pa.available <;> rcases hca : ca.available <;>
    rcases haa : aa.available <;> rcases hf : isFragile <;>
    simp [passRecords_foldl, cat4Records_foldl, academicRecords_foldl, List.append_assoc]

end SAEngine

namespace TriEngine

theorem passInterventions_foldl (l : List PassArea) (acc : List Intervention) :
    l.foldl (fun acc r => acc ++ passRiskInterventions r) acc =
      acc ++ l.flatMap passRiskInterventions :=
  foldl_append_flatMap passRiskInterventions l acc

theorem cat4Interventions_foldl (l : List Cat4Area) (acc : List Intervention) :
    l.foldl (fun acc w => acc ++ cat4WeaknessInterventions w) acc =
      acc ++ l.flatMap cat4WeaknessInterventions :=
  foldl_append_flatMap cat4WeaknessInterventions l acc

theorem academicInterventions_foldl (l : List AcademicArea) (acc : List Intervention) :
    l.foldl (fun acc w => acc ++ [academicWeaknessIntervention w]) acc =
      acc ++ l.map academicWeaknessIntervention :=
  (foldl_append_flatMap (fun w => [academicWeaknessIntervention w]) l acc).trans
    (by simp [flatMap_singleton_eq_map])

/-- `TriangulatedAnalyticsEngine._generate_interventions` is the
concatenation of its four generation blocks, in order: PASS risk records,
CAT4 weakness records, the fragile-learner record, academic weakness
records. -/
theorem triGenerateInterventions_eq (pa : PassAnalysis) (ca : Cat4Analysis)
    (aa : AcademicAnalysis) (isFragile : Bool) :
    generateInterventions pa ca aa isFragile =
      (if pa.available then pa.riskAreas.flatMap passRiskInterventions else [])
        ++ ((if ca.available then ca.weaknessAreas.flatMap cat4WeaknessInterventions else [])
        ++ ((if isFragile then [fragileIntervention] else [])
        ++ (if aa.available then aa.weaknessAreas.map academicWeaknessIntervention else []))) := by
  unfold generateInterventions
  rcases hpa : pa.available <;> rcases hca : ca.available <;>
    rcases haa : aa.available <;> rcases hf : isFragile <;>
    simp [passInterventions_foldl, cat4Interventions_foldl, academicInterventions_foldl,
      List.append_assoc]

theorem classifyPass_atRisk_iff (p : ℚ) : classifyPass p = "at-risk" ↔ p < 45 := by
  unfold classifyPass
  split_ifs with h1 h2 <;> simp <;> linarith

theorem classifyPass_strength_iff (p : ℚ) : classifyPass p = "strength" ↔ 65 ≤ p := by
  unfold classifyPass
  split_ifs with h1 h2 <;> simp <;> linarith

theorem classifyPass_balanced_iff (p : ℚ) :
    classifyPass p = "balanced" ↔ 45 ≤ p ∧ p < 65 := by
  unfold classifyPass
  split_ifs with h1 h2 <;> simp <;>
    first
    | (rintro ⟨hA, hB⟩; linarith)
    | (intro hA; linarith)
    | (constructor <;> linarith)

theorem classifyCat4_weakness_iff (sas : ℚ) : classifyCat4 sas = "weakness" ↔ sas < 90 := by
  unfold classifyCat4
  split_ifs with h1 h2 <;> simp <;> linarith

theorem classifyCat4_strength_iff (sas : ℚ) : classifyCat4 sas = "strength" ↔ 110 < sas := by
  unfold classifyCat4
  split_ifs with h1 h2 <;> simp <;> linarith

theorem classifyCat4_balanced_iff (sas : ℚ) :
    classifyCat4 sas = "balanced" ↔ 90 ≤ sas ∧ sas ≤ 110 := by
  unfold classifyCat4
  split_ifs with h1 h2 <;> simp <;>
    first
    | (rintro ⟨hA, hB⟩; linarith)
    | (intro hA; linarith)
    | (constructor <;> linarith)

theorem classifyAcademic_weakness_iff (st : ℚ) :
    classifyAcademic st = "weakness" ↔ st < 4 := by
  unfold classifyAcademic
  split_ifs with h1 h2 <;> simp <;> linarith

theorem classifyAcademic_strength_iff (st : ℚ) :
    classifyAcademic st = "strength" ↔ 7 ≤ st := by
  unfold classifyAcademic
  split_ifs with h1 h2 <;> simp <;> linarith

theorem classifyAcademic_balanced_iff (st : ℚ) :
    classifyAcademic st = "balanced" ↔ 4 ≤ st ∧ st < 7 := by
  unfold classifyAcademic
  split_ifs with h1 h2 <;> simp <;>
    first
    | (rintro ⟨hA, hB⟩; linarith)
    | (intro hA; linarith)
    | (constructor <;> linarith)

theorem scoreDescBefore_trans (a b c : SummaryEntry) :
    scoreDescBefore a b → scoreDescBefore b c → scoreDescBefore a c := by
  intro hab hbc
  simp only [scoreDescBefore, decide_eq_true_eq] at hab hbc ⊢
  linarith

theorem scoreDescBefore_total (a b : SummaryEntry) :
    scoreDescBefore a b || scoreDescBefore b a := by
  simp only [scoreDescBefore, Bool.or_eq_true, decide_eq_true_eq]
  exact le_total b.score a.score

theorem scoreAscBefore_trans (a b c : SummaryEntry) :
    scoreAscBefore a b → scoreAscBefore b c → scoreAscBefore a c := by
  intro hab hbc
  simp only [scoreAscBefore, decide_eq_true_eq] at hab hbc ⊢
  linarith

theorem scoreAscBefore_total (a b : SummaryEntry) :
    scoreAscBefore a b || scoreAscBefore b a := by
  simp only [scoreAscBefore, Bool.or_eq_true, decide_eq_true_eq]
  exact le_total a.score b.score

theorem topStrengths_sorted (pa : PassAnalysis) (ca : Cat4Analysis) (aa : AcademicAnalysis) :
    ((generateTriangulatedSummary pa ca aa).topStrengths).Pairwise
      (fun a b => b.score ≤ a.score) := by
  have h := List.sorted_mergeSort scoreDescBefore_trans scoreDescBefore_total
    (collectStrengths pa ca aa)
  have h2 : ((collectStrengths pa ca aa).mergeSort scoreDescBefore).Pairwise
      (fun a b => b.score ≤ a.score) := by
    refine h.imp ?_
    intro a b hab
    simpa [scoreDescBefore, decide_eq_true_eq] using hab
  exact h2.sublist (List.take_sublist 5 _)

theorem topWeaknesses_sorted (pa : PassAnalysis) (ca : Cat4Analysis) (aa : AcademicAnalysis) :
    ((generateTriangulatedSummary pa ca aa).topWeaknesses).Pairwise
      (fun a b => a.score ≤ b.score) := by
  have h := List.sorted_mergeSort scoreAscBefore_trans scoreAscBefore_total
    (collectWeaknesses pa ca aa)
  have h2 : ((collectWeaknesses pa ca aa).mergeSort scoreAscBefore).Pairwise
      (fun a b => a.score ≤ b.score) := by
    refine h.imp ?_
    intro a b hab
    simpa [scoreAscBefore, decide_eq_true_eq] using hab
  exact h2.sublist (List.take_sublist 5 _)

theorem topStrengths_subset (pa : PassAnalysis) (ca : Cat4Analysis) (aa : AcademicAnalysis) :
    (generateTriangulatedSummary pa ca aa).topStrengths ⊆ collectStrengths pa ca aa := by
  intro e he
  have h1 : e ∈ (collectStrengths pa ca aa).mergeSort scoreDescBefore :=
    (List.take_sublist 5 _).subset he
  exact (List.mergeSort_perm (collectStrengths pa ca aa) scoreDescBefore).subset h1

theorem topWeaknesses_subset (pa : PassAnalysis) (ca : Cat4Analysis) (aa : AcademicAnalysis) :
    (generateTriangulatedSummary pa ca aa).topWeaknesses ⊆ collectWeaknesses pa ca aa := by
  intro e he
  have h1 : e ∈ (collectWeaknesses pa ca aa).mergeSort scoreAscBefore :=
    (List.take_sublist 5 _).subset he
  exact (List.mergeSort_perm (collectWeaknesses pa ca aa) scoreAscBefore).subset h1

end TriEngine

namespace TriEngine

theorem collectStrengths_mem {pa : PassAnalysis} {ca : Cat4Analysis} {aa : AcademicAnalysis}
    {e : SummaryEntry} (he : e ∈ collectStrengths pa ca aa) :
    (e.domain = "PASS" ∧ ∃ s ∈ pa.strengthAreas, e.score = s.percentile)
    ∨ (e.domain = "CAT4" ∧ ∃ s ∈ ca.strengthAreas, e.score = s.sas)
    ∨ (e.domain = "Academic" ∧ ∃ s ∈ aa.strengthAreas, e.score = s.stanine) := by
  simp only [collectStrengths, List.mem_append] at he
  rcases he with he | he | he
  · rcases hav : pa.available with _ | _
    · rw [hav] at he; simp at he
    · rw [hav] at he
      simp only [if_true, List.mem_map] at he
      obtain ⟨s, hs, rfl⟩ := he
      exact Or.inl ⟨rfl, s, hs, rfl⟩
  · rcases hav : ca.available with _ | _
    · rw [hav] at he; simp at he
    · rw [hav] at he
      simp only [if_true, List.mem_map] at he
      obtain ⟨s, hs, rfl⟩ := he
      exact Or.inr (Or.inl ⟨rfl, s, hs, rfl⟩)
  · rcases hav : aa.available with _ | _
    · rw [hav] at he; simp at he
    · rw [hav] at he
      simp only [if_true, List.mem_map] at he
      obtain ⟨s, hs, rfl⟩ := he
      exact Or.inr (Or.inr ⟨rfl, s, hs, rfl⟩)

theorem collectWeaknesses_mem {pa : PassAnalysis} {ca : Cat4Analysis} {aa : AcademicAnalysis}
    {e : SummaryEntry} (he : e ∈ collectWeaknesses pa ca aa) :
    (e.domain = "PASS" ∧ ∃ s ∈ pa.riskAreas, e.score = s.percentile)
    ∨ (e.domain = "CAT4" ∧ ∃ s ∈ ca.weaknessAreas, e.score = s.sas)
    ∨ (e.domain = "Academic" ∧ ∃ s ∈ aa.weaknessAreas, e.score = s.stanine) := by
  simp only [collectWeaknesses, List.mem_append] at he
  rcases he with he | he | he
  · rcases hav : pa.available with _ | _
    · rw [hav] at he; simp at he
    · rw [hav] at he
      simp only [if_true, List.mem_map] at he
      obtain ⟨s, hs, rfl⟩ := he
      exact Or.inl ⟨rfl, s, hs, rfl⟩
  · rcases hav : ca.available with _ | _
    · rw [hav] at he; simp at he
    · rw [hav] at he
      simp only [if_true, List.mem_map] at he
      obtain ⟨s, hs, rfl⟩ := he
      exact Or.inr (Or.inl ⟨rfl, s, hs, rfl⟩)
  · rcases hav : aa.available with _ | _
    · rw [hav] at he; simp at he
    · rw [hav] at he
      simp only [if_true, List.mem_map] at he
      obtain ⟨s, hs, rfl⟩ := he
      exact Or.inr (Or.inr ⟨rfl, s, hs, rfl⟩)

theorem passStrengthList_score {l : List PassFactor} {s : PassArea}
    (hs : s ∈ passStrengthList l) : 65 ≤ s.percentile := by
  unfold passStrengthList at hs
  obtain ⟨f, hf, rfl⟩ := List.mem_map.mp hs
  have hcl := (List.mem_filter.mp hf).2
  simp only [decide_eq_true_eq] at hcl
  exact (classifyPass_strength_iff f.percentile).mp hcl

theorem passRiskList_score {l : List PassFactor} {s : PassArea}
    (hs : s ∈ passRiskList l) : s.percentile < 45 := by
  unfold passRiskList at hs
  obtain ⟨f, hf, rfl⟩ := List.mem_map.mp hs
  have hcl := (List.mem_filter.mp hf).2
  simp only [decide_eq_true_eq] at hcl
  exact (classifyPass_atRisk_iff f.percentile).mp hcl

theorem cat4StrengthList_score {l : List Cat4Domain} {s : Cat4Area}
    (hs : s ∈ cat4StrengthList l) : 110 < s.sas := by
  unfold cat4StrengthList at hs
  obtain ⟨d, hd, rfl⟩ := List.mem_map.mp hs
  have hcl := (List.mem_filter.mp hd).2
  simp only [decide_eq_true_eq] at hcl
  exact (classifyCat4_strength_iff _).mp hcl

theorem cat4WeakList_score {l : List Cat4Domain} {s : Cat4Area}
    (hs : s ∈ cat4WeakList l) : s.sas < 90 ∧ ∃ d ∈ l, s.sas = stanineToSas d.stanine := by
  unfold cat4WeakList at hs
  obtain ⟨d, hd, rfl⟩ := List.mem_map.mp hs
  have hcl := (List.mem_filter.mp hd).2
  simp only [decide_eq_true_eq] at hcl
  exact ⟨(classifyCat4_weakness_iff _).mp hcl, d, (List.mem_filter.mp hd).1, rfl⟩

theorem academicStrengthList_score {l : List Subject} {s : AcademicArea}
    (hs : s ∈ academicStrengthList l) :
    7 ≤ s.stanine ∧ ∃ x ∈ l, s.stanine = x.internalStanine := by
  unfold academicStrengthList at hs
  obtain ⟨x, hx, rfl⟩ := List.mem_map.mp hs
  have hcl := (List.mem_filter.mp hx).2
  simp only [decide_eq_true_eq] at hcl
  exact ⟨(classifyAcademic_strength_iff _).mp hcl, x, (List.mem_filter.mp hx).1, rfl⟩

theorem academicWeakList_score {l : List Subject} {s : AcademicArea}
    (hs : s ∈ academicWeakList l) : s.stanine < 4 := by
  unfold academicWeakList at hs
  obtain ⟨x, hx, rfl⟩ := List.mem_map.mp hs
  have hcl := (List.mem_filter.mp hx).2
  simp only [decide_eq_true_eq] at hcl
  exact (classifyAcademic_weakness_iff _).mp hcl

end TriEngine

/-- C1: the domain classifiers assign levels by the fixed thresholds with the
stated boundary behaviour: a PASS percentile is at-risk exactly when below
45, strength exactly when at least 65, balanced otherwise; a CAT4 converted
SAS is weakness exactly when below 90, strength exactly when above 110,
balanced otherwise (so SAS 90 and 110 are balanced); an academic (integer)
stanine is weakness exactly when at most 3, strength exactly when at least 7,
balanced otherwise. -/
theorem claim_C1 :
    (∀ p : ℚ, (TriEngine.classifyPass p = "at-risk" ↔ p < 45)
      ∧ (TriEngine.classifyPass p = "strength" ↔ 65 ≤ p)
      ∧ (TriEngine.classifyPass p = "balanced" ↔ 45 ≤ p ∧ p < 65))
    ∧ (∀ sas : ℚ, (TriEngine.classifyCat4 sas = "weakness" ↔ sas < 90)
      ∧ (TriEngine.classifyCat4 sas = "strength" ↔ 110 < sas)
      ∧ (TriEngine.classifyCat4 sas = "balanced" ↔ 90 ≤ sas ∧ sas ≤ 110))
    ∧ (∀ n : ℤ, (TriEngine.classifyAcademic (n : ℚ) = "weakness" ↔ n ≤ 3)
      ∧ (TriEngine.classifyAcademic (n : ℚ) = "strength" ↔ 7 ≤ n)
      ∧ (TriEngine.classifyAcademic (n : ℚ) = "balanced" ↔ 4 ≤ n ∧ n ≤ 6)) := by
  refine ⟨fun p => ⟨TriEngine.classifyPass_atRisk_iff p, TriEngine.classifyPass_strength_iff p,
      TriEngine.classifyPass_balanced_iff p⟩,
    fun sas => ⟨TriEngine.classifyCat4_weakness_iff sas, TriEngine.classifyCat4_strength_iff sas,
      TriEngine.classifyCat4_balanced_iff sas⟩,
    fun n => ⟨?_, ?_, ?_⟩⟩
  · rw [TriEngine.classifyAcademic_weakness_iff,
      show ((4 : ℚ)) = ((4 : ℤ) : ℚ) by norm_num, Int.cast_lt]
    omega
  · rw [TriEngine.classifyAcademic_strength_iff,
      show ((7 : ℚ)) = ((7 : ℤ) : ℚ) by norm_num, Int.cast_le]
  · rw [TriEngine.classifyAcademic_balanced_iff,
      show ((4 : ℚ)) = ((4 : ℤ) : ℚ) by norm_num,
      show ((7 : ℚ)) = ((7 : ℤ) : ℚ) by norm_num, Int.cast_le, Int.cast_lt]
    omega

/-- C2: the fragile-learner flag is true exactly when the CAT4 analysis is
available and at least 2 CAT4 domains are classified at weakness level, and
whenever the CAT4 analysis is unavailable the flag is false. -/
theorem claim_C2 :
    (∀ ds : List TriEngine.Cat4Domain,
      TriEngine.determineFragileLearner (TriEngine.analyzeCat4 ds) = true ↔
        (TriEngine.analyzeCat4 ds).available = true
          ∧ 2 ≤ ((TriEngine.analyzeCat4 ds).domains.filter
              (fun d => decide (d.level = "weakness"))).length)
    ∧ ∀ ca : TriEngine.Cat4Analysis, ca.available = false →
        TriEngine.determineFragileLearner ca = false := by
  constructor
  · intro ds
    have hfilter : ((TriEngine.analyzeCat4 ds).domains.filter
        (fun d => decide (d.level = "weakness"))).length = TriEngine.cat4WeakCount ds := by
      rw [TriEngine.analyzeCat4_domains]
      unfold TriEngine.cat4DomainsList TriEngine.cat4WeakCount
      rw [List.filter_map]
      simp [Function.comp_def]
    rw [hfilter]
    unfold TriEngine.determineFragileLearner
    rcases hav : (TriEngine.analyzeCat4 ds).available with _ | _
    · simp [hav]
    · simp [hav, TriEngine.analyzeCat4_fragileFlags]
  · intro ca hca
    unfold TriEngine.determineFragileLearner
    simp [hca]

/-- C3 counterexample: at SAS 112 the implemented converter returns 6, while
the claimed midpoint cut rule (sas ≥ 112 → 7) returns 7, so the converter
does not implement the claimed rule. -/
theorem claim_C3_counterexample :
    TriEngine.sasToStanine 112 = 6 ∧ midpointSasToStanine 112 = 7
      ∧ TriEngine.sasToStanine 112 ≠ midpointSasToStanine 112 := by
  refine ⟨?_, ?_, ?_⟩ <;> norm_num [TriEngine.sasToStanine, midpointSasToStanine]

set_option maxHeartbeats 2000000 in
/-- C3 (amended): the SAS-to-stanine converter (identically in the
triangulated engine and in fix_cat4_domains) implements the upper-bound cut
rule: 1 exactly when sas ≤ 74, 2 exactly when 74 < sas ≤ 81, 3 exactly when
81 < sas ≤ 88, 4 exactly when 88 < sas ≤ 96, 5 exactly when 96 < sas ≤ 103,
6 exactly when 103 < sas ≤ 112, 7 exactly when 112 < sas ≤ 119, 8 exactly
when 119 < sas ≤ 127, and 9 exactly when 127 < sas. -/
theorem claim_C3 : ∀ sas : ℚ,
    (TriEngine.sasToStanine sas = 1 ↔ sas ≤ 74)
    ∧ (TriEngine.sasToStanine sas = 2 ↔ 74 < sas ∧ sas ≤ 81)
    ∧ (TriEngine.sasToStanine sas = 3 ↔ 81 < sas ∧ sas ≤ 88)
    ∧ (TriEngine.sasToStanine sas = 4 ↔ 88 < sas ∧ sas ≤ 96)
    ∧ (TriEngine.sasToStanine sas = 5 ↔ 96 < sas ∧ sas ≤ 103)
    ∧ (TriEngine.sasToStanine sas = 6 ↔ 103 < sas ∧ sas ≤ 112)
    ∧ (TriEngine.sasToStanine sas = 7 ↔ 112 < sas ∧ sas ≤ 119)
    ∧ (TriEngine.sasToStanine sas = 8 ↔ 119 < sas ∧ sas ≤ 127)
    ∧ (TriEngine.sasToStanine sas = 9 ↔ 127 < sas)
    ∧ FixCat4.sasToStanine sas = TriEngine.sasToStanine sas := by
  intro sas
  have hsame : FixCat4.sasToStanine sas = TriEngine.sasToStanine sas := by
    unfold FixCat4.sasToStanine TriEngine.sasToStanine
    rfl
  refine ⟨?_, ?_, ?_, ?_, ?_, ?_, ?_, ?_, ?_, hsame⟩ <;>
    (unfold TriEngine.sasToStanine
     split_ifs <;> norm_num <;>
       first
       | linarith
       | (constructor <;> linarith)
       | (rintro ⟨hA, hB⟩; linarith)
       | (intro hA; linarith)
       | (push_neg; intro hA; linarith))

/-- C4: for every integer stanine s with 1 ≤ s ≤ 9 the converters compose to
the identity: sas_to_stanine (stanine_to_sas s) = s. -/
theorem claim_C4 (n : ℤ) (h1 : 1 ≤ n) (h2 : n ≤ 9) :
    TriEngine.sasToStanine (TriEngine.stanineToSas (n : ℚ)) = (n : ℚ) := by
  interval_cases n <;>
    norm_num [TriEngine.stanineToSas, TriEngine.sasToStanine]

/-- C4 witness: the round trip at stanine 3. -/
theorem claim_C4_witness :
    TriEngine.sasToStanine (TriEngine.stanineToSas ((3 : ℤ) : ℚ)) = ((3 : ℤ) : ℚ) :=
  claim_C4 3 (by norm_num) (by norm_num)

/-- C5 counterexample: with the fragile flag set and no classified risk or
weakness factors at all, the triangulated engine's mapper produces exactly
one holistic record, but it is the `Holistic learning support` record with
priority `critical`, not a `Comprehensive Learning Support` record with
priority `high`. -/
theorem claim_C5_counterexample :
    TriEngine.generateInterventions ⟨false, [], [], []⟩ ⟨false, [], [], [], false, 0⟩
        ⟨false, [], [], []⟩ true = [TriEngine.fragileIntervention]
    ∧ TriEngine.fragileIntervention.priority = "critical"
    ∧ TriEngine.fragileIntervention.priority ≠ "high" := by
  refine ⟨?_, rfl, by decide⟩
  simp [TriEngine.generateInterventions]

/-- C5 (amended): if the fragile flag is true and there are no other
classified risk or weakness factors, then (given an available CAT4 analysis)
`StudentAnalyticsEngine.generateInterventions` returns exactly one holistic
record, titled `Comprehensive Learning Support` with priority `high`,
regardless of the PASS and academic state; the triangulated engine's mapper
likewise returns exactly one holistic record, but it is the
`Holistic learning support` record with priority `critical`. -/
theorem claim_C5 :
    (∀ (pa : SAEngine.PassAnalysis) (ca : SAEngine.Cat4Analysis)
        (aa : SAEngine.AcademicAnalysis),
      ca.available = true → ca.weaknessAreas = [] →
      (pa.available = true → pa.riskAreas = []) →
      (aa.available = true → ∀ s ∈ aa.subjects, s.level ≠ "weakness") →
      SAEngine.generateInterventions pa ca aa true =
        [⟨"holistic", "Fragile Learner", "Comprehensive Learning Support",
          "Multi-faceted approach combining cognitive scaffolding, additional processing time, and alternative assessment options.",
          "high"⟩])
    ∧ (∀ (pa : TriEngine.PassAnalysis) (ca : TriEngine.Cat4Analysis)
        (aa : TriEngine.AcademicAnalysis),
      (pa.available = true → pa.riskAreas = []) →
      (ca.available = true → ca.weaknessAreas = []) →
      (aa.available = true → aa.weaknessAreas = []) →
      TriEngine.generateInterventions pa ca aa true = [TriEngine.fragileIntervention]) := by
  constructor
  · intro pa ca aa hca hcw hpa haa
    rw [SAEngine.saGenerateInterventions_eq]
    have h1 : (if pa.available then pa.riskAreas.flatMap SAEngine.passRiskRecords else [])
        = [] := by
      rcases hav : pa.available with _ | _
      · simp
      · simp [hpa hav]
    have h4 : (if aa.available then
        (aa.subjects.filter (fun s => decide (s.level = "weakness"))).flatMap
          SAEngine.academicSubjectRecords else []) = [] := by
      rcases hav : aa.available with _ | _
      · simp
      · have hfil : aa.subjects.filter (fun s => decide (s.level = "weakness")) = [] := by
          rw [List.filter_eq_nil_iff]
          intro s hs
          simpa using haa hav s hs
        simp [hfil]
    rw [h1, h4, hca]
    simp [hcw]
    rfl
  · intro pa ca aa hpa hca haa
    rw [TriEngine.triGenerateInterventions_eq]
    have h1 : (if pa.available then pa.riskAreas.flatMap TriEngine.passRiskInterventions
        else []) = [] := by
      rcases hav : pa.available with _ | _
      · simp
      · simp [hpa hav]
    have h2 : (if ca.available then
        ca.weaknessAreas.flatMap TriEngine.cat4WeaknessInterventions else []) = [] := by
      rcases hav : ca.available with _ | _
      · simp
      · simp [hca hav]
    have h4 : (if aa.available then
        aa.weaknessAreas.map TriEngine.academicWeaknessIntervention else []) = [] := by
      rcases hav : aa.available with _ | _
      · simp
      · simp [haa hav]
    rw [h1, h2, h4]
    simp

/-- C6 counterexample: a profile with PASS risk areas `Self Regard` then
`Attitude Teachers` produces interventions with priorities
`[high, medium, high]` — not sorted by the priority rank
(high before medium before low), so the mapper's output is not
priority-sorted. -/
theorem claim_C6_counterexample :
    (SAEngine.generateInterventions
        ⟨true, [], [⟨"Self Regard", 30, "at-risk"⟩, ⟨"Attitude Teachers", 30, "at-risk"⟩], []⟩
        ⟨false, [], [], [], false⟩ ⟨false, []⟩ false).map (fun i => i.priority) =
      ["high", "medium", "high"]
    ∧ ¬ List.Pairwise (fun a b => priorityRank a.priority ≤ priorityRank b.priority)
        (SAEngine.generateInterventions
          ⟨true, [], [⟨"Self Regard", 30, "at-risk"⟩, ⟨"Attitude Teachers", 30, "at-risk"⟩], []⟩
          ⟨false, [], [], [], false⟩ ⟨false, []⟩ false) := by
  constructor
  · decide
  · decide

/-- C6 (amended): neither intervention mapper sorts by priority; each
returns its records in generation order — PASS risk records first (in risk
order, each factor's templates in table order), then CAT4 weakness records,
then the fragile-learner record(s), then academic weakness records. The
relative order among equal priorities is the generation order, but
priorities are not grouped high before medium before low. -/
theorem claim_C6 :
    (∀ (pa : SAEngine.PassAnalysis) (ca : SAEngine.Cat4Analysis)
        (aa : SAEngine.AcademicAnalysis) (f : Bool),
      SAEngine.generateInterventions pa ca aa f =
        (if pa.available then pa.riskAreas.flatMap SAEngine.passRiskRecords else [])
          ++ ((if ca.available then ca.weaknessAreas.flatMap SAEngine.cat4WeaknessRecords
              else [])
          ++ ((if ca.available then (if f then SAEngine.fragileRecords else []) else [])
          ++ (if aa.available then
                (aa.subjects.filter (fun s => decide (s.level = "weakness"))).flatMap
                  SAEngine.academicSubjectRecords
              else []))))
    ∧ (∀ (pa : TriEngine.PassAnalysis) (ca : TriEngine.Cat4Analysis)
        (aa : TriEngine.AcademicAnalysis) (f : Bool),
      TriEngine.generateInterventions pa ca aa f =
        (if pa.available then pa.riskAreas.flatMap TriEngine.passRiskInterventions else [])
          ++ ((if ca.available then
              ca.weaknessAreas.flatMap TriEngine.cat4WeaknessInterventions
            else [])
          ++ ((if f then [TriEngine.fragileIntervention] else [])
          ++ (if aa.available then aa.weaknessAreas.map TriEngine.academicWeaknessIntervention
              else [])))) :=
  ⟨SAEngine.saGenerateInterventions_eq, TriEngine.triGenerateInterventions_eq⟩

/-- C7: for every combination of analyses, `top_strengths` has at most 5
entries, is sorted descending by raw score, and consists of collected
strength entries (all of them whenever at most 5 are collected);
symmetrically `top_weaknesses` is sorted ascending and bounded by 5. -/
theorem claim_C7 (pa : TriEngine.PassAnalysis) (ca : TriEngine.Cat4Analysis)
    (aa : TriEngine.AcademicAnalysis) :
    (TriEngine.generateTriangulatedSummary pa ca aa).topStrengths.length ≤ 5
    ∧ (TriEngine.generateTriangulatedSummary pa ca aa).topWeaknesses.length ≤ 5
    ∧ (TriEngine.generateTriangulatedSummary pa ca aa).topStrengths.Pairwise
        (fun a b => b.score ≤ a.score)
    ∧ (TriEngine.generateTriangulatedSummary pa ca aa).topWeaknesses.Pairwise
        (fun a b => a.score ≤ b.score)
    ∧ (TriEngine.generateTriangulatedSummary pa ca aa).topStrengths
        ⊆ TriEngine.collectStrengths pa ca aa
    ∧ (TriEngine.generateTriangulatedSummary pa ca aa).topWeaknesses
        ⊆ TriEngine.collectWeaknesses pa ca aa
    ∧ ((TriEngine.collectStrengths pa ca aa).length ≤ 5 →
        ((TriEngine.generateTriangulatedSummary pa ca aa).topStrengths).Perm
          (TriEngine.collectStrengths pa ca aa))
    ∧ ((TriEngine.collectWeaknesses pa ca aa).length ≤ 5 →
        ((TriEngine.generateTriangulatedSummary pa ca aa).topWeaknesses).Perm
          (TriEngine.collectWeaknesses pa ca aa)) := by
  refine ⟨List.length_take_le 5 _, List.length_take_le 5 _,
    TriEngine.topStrengths_sorted pa ca aa, TriEngine.topWeaknesses_sorted pa ca aa,
    TriEngine.topStrengths_subset pa ca aa, TriEngine.topWeaknesses_subset pa ca aa, ?_, ?_⟩
  · intro hlen
    have h1 : ((TriEngine.collectStrengths pa ca aa).mergeSort
        TriEngine.scoreDescBefore).length ≤ 5 := by
      rw [List.length_mergeSort]; exact hlen
    show (((TriEngine.collectStrengths pa ca aa).mergeSort
      TriEngine.scoreDescBefore).take 5).Perm (TriEngine.collectStrengths pa ca aa)
    rw [List.take_of_length_le h1]
    exact List.mergeSort_perm _ _
  · intro hlen
    have h1 : ((TriEngine.collectWeaknesses pa ca aa).mergeSort
        TriEngine.scoreAscBefore).length ≤ 5 := by
      rw [List.length_mergeSort]; exact hlen
    show (((TriEngine.collectWeaknesses pa ca aa).mergeSort
      TriEngine.scoreAscBefore).take 5).Perm (TriEngine.collectWeaknesses pa ca aa)
    rw [List.take_of_length_le h1]
    exact List.mergeSort_perm _ _

/-- C8 counterexample: in `StudentAnalyticsEngine.process_student`, a PASS
factor at percentile 70 is classified `strength` in the factor list, yet the
analysis's `strengthAreas` list is empty — strength-level factors are not
appended to a strengths list on that path. -/
theorem claim_C8_counterexample :
    ((SAEngine.processPassAnalysis (some ⟨[⟨"Confidence", 70⟩]⟩)).factors.map
        (fun f => f.level)) = ["strength"]
    ∧ (SAEngine.processPassAnalysis (some ⟨[⟨"Confidence", 70⟩]⟩)).strengthAreas = [] := by
  constructor
  · norm_num [SAEngine.processPassAnalysis, SAEngine.formatPassFactors, SAEngine.passLevel]
  · rfl

/-- C8 (amended): in the triangulated engine every domain classifier's
risk/weakness list contains exactly the risk/weakness-level factors and its
strengths list exactly the strength-level factors, each in evaluation order;
in `StudentAnalyticsEngine.process_student` the risk/weakness lists likewise
contain exactly the risk/weakness-level factors in evaluation order, but the
`strengthAreas` lists are always the empty list. -/
theorem claim_C8 :
    (∀ l, (TriEngine.analyzePass l).riskAreas = TriEngine.passRiskList l
      ∧ (TriEngine.analyzePass l).strengthAreas = TriEngine.passStrengthList l)
    ∧ (∀ l, (TriEngine.analyzeCat4 l).weaknessAreas = TriEngine.cat4WeakList l
      ∧ (TriEngine.analyzeCat4 l).strengthAreas = TriEngine.cat4StrengthList l)
    ∧ (∀ l, (TriEngine.analyzeAcademic l).weaknessAreas = TriEngine.academicWeakList l
      ∧ (TriEngine.analyzeAcademic l).strengthAreas = TriEngine.academicStrengthList l)
    ∧ (∀ a, (SAEngine.processPassAnalysis (some a)).riskAreas = SAEngine.passRisksOf a
      ∧ (SAEngine.processPassAnalysis (some a)).strengthAreas = [])
    ∧ (∀ a f, (SAEngine.processCat4Analysis (some a) f).weaknessAreas
        = SAEngine.cat4WeaknessesOf a
      ∧ (SAEngine.processCat4Analysis (some a) f).strengthAreas = []) :=
  ⟨fun l => ⟨TriEngine.analyzePass_riskAreas l, TriEngine.analyzePass_strengthAreas l⟩,
   fun l => ⟨TriEngine.analyzeCat4_weaknessAreas l, TriEngine.analyzeCat4_strengthAreas l⟩,
   fun l => ⟨TriEngine.analyzeAcademic_weaknessAreas l,
     TriEngine.analyzeAcademic_strengthAreas l⟩,
   fun a => ⟨SAEngine.identifyPassRisks_eq a, rfl⟩,
   fun a f => ⟨SAEngine.identifyCat4Weaknesses_eq a, rfl⟩⟩

/-- C9: the stanine-threshold weakness rule (stanine ≤ 3) of
`_identify_cat4_weaknesses` and the SAS-threshold weakness rule
(converted SAS < 90) of `_analyze_cat4_data` disagree at some stanine in
[1, 9] under the linear-interpolation conversion. -/
theorem claim_C9 :
    ∃ s : ℚ, 1 ≤ s ∧ s ≤ 9
      ∧ ¬ SAEngine.cat4Level s = "weakness"
      ∧ TriEngine.classifyCat4 (TriEngine.stanineToSas s) = "weakness" := by
  refine ⟨31 / 10, by norm_num, by norm_num, ?_, ?_⟩
  · unfold SAEngine.cat4Level
    norm_num
    decide
  · unfold TriEngine.classifyCat4 TriEngine.stanineToSas TriEngine.pyTrunc
      TriEngine.stanineSasTable
    norm_num

/-- C10: assuming every converted CAT4 SAS lies in 60–140, every PASS
percentile in 1–100 and every academic stanine in 1–9, the triangulated
summary's cross-scale ranking is systematic: in `top_strengths` no academic
entry (stanine scale, ≤ 9) ever precedes a CAT4 (SAS > 110) or PASS
(percentile ≥ 65) entry, and in `top_weaknesses` no CAT4 entry (SAS ≥ 60)
ever precedes an academic entry (stanine < 4). -/
theorem claim_C10 (pf : List TriEngine.PassFactor) (cd : List TriEngine.Cat4Domain)
    (subs : List TriEngine.Subject)
    (hp : ∀ f ∈ pf, 1 ≤ f.percentile ∧ f.percentile ≤ 100)
    (hc : ∀ d ∈ cd, 60 ≤ TriEngine.stanineToSas d.stanine
      ∧ TriEngine.stanineToSas d.stanine ≤ 140)
    (ha : ∀ s ∈ subs, 1 ≤ s.internalStanine ∧ s.internalStanine ≤ 9) :
    ((TriEngine.generateTriangulatedSummary (TriEngine.analyzePass pf)
        (TriEngine.analyzeCat4 cd) (TriEngine.analyzeAcademic subs)).topStrengths).Pairwise
      (fun a b => a.domain = "Academic" → b.domain = "Academic")
    ∧ ((TriEngine.generateTriangulatedSummary (TriEngine.analyzePass pf)
        (TriEngine.analyzeCat4 cd) (TriEngine.analyzeAcademic subs)).topWeaknesses).Pairwise
      (fun a b => a.domain = "CAT4" → b.domain = "CAT4") := by
  have hInvS : ∀ e ∈ TriEngine.collectStrengths (TriEngine.analyzePass pf)
      (TriEngine.analyzeCat4 cd) (TriEngine.analyzeAcademic subs),
      (e.domain = "PASS" ∧ 65 ≤ e.score) ∨ (e.domain = "CAT4" ∧ 110 < e.score)
        ∨ (e.domain = "Academic" ∧ e.score ≤ 9) := by
    intro e he
    rcases TriEngine.collectStrengths_mem he with ⟨hd, s, hs, hscore⟩ | ⟨hd, s, hs, hscore⟩
      | ⟨hd, s, hs, hscore⟩
    · rw [TriEngine.analyzePass_strengthAreas] at hs
      exact Or.inl ⟨hd, hscore ▸ TriEngine.passStrengthList_score hs⟩
    · rw [TriEngine.analyzeCat4_strengthAreas] at hs
      exact Or.inr (Or.inl ⟨hd, hscore ▸ TriEngine.cat4StrengthList_score hs⟩)
    · rw [TriEngine.analyzeAcademic_strengthAreas] at hs
      obtain ⟨h7, x, hx, heq⟩ := TriEngine.academicStrengthList_score hs
      refine Or.inr (Or.inr ⟨hd, ?_⟩)
      rw [hscore, heq]
      exact (ha x hx).2
  have hInvW : ∀ e ∈ TriEngine.collectWeaknesses (TriEngine.analyzePass pf)
      (TriEngine.analyzeCat4 cd) (TriEngine.analyzeAcademic subs),
      (e.domain = "PASS" ∧ e.score < 45) ∨ (e.domain = "CAT4" ∧ 60 ≤ e.score)
        ∨ (e.domain = "Academic" ∧ e.score < 4) := by
    intro e he
    rcases TriEngine.collectWeaknesses_mem he with ⟨hd, s, hs, hscore⟩ | ⟨hd, s, hs, hscore⟩
      | ⟨hd, s, hs, hscore⟩
    · rw [TriEngine.analyzePass_riskAreas] at hs
      exact Or.inl ⟨hd, hscore ▸ TriEngine.passRiskList_score hs⟩
    · rw [TriEngine.analyzeCat4_weaknessAreas] at hs
      obtain ⟨hlt, d, hdmem, heq⟩ := TriEngine.cat4WeakList_score hs
      refine Or.inr (Or.inl ⟨hd, ?_⟩)
      rw [hscore, heq]
      exact (hc d hdmem).1
    · rw [TriEngine.analyzeAcademic_weaknessAreas] at hs
      exact Or.inr (Or.inr ⟨hd, hscore ▸ TriEngine.academicWeakList_score hs⟩)
  constructor
  · have hsorted := TriEngine.topStrengths_sorted (TriEngine.analyzePass pf)
      (TriEngine.analyzeCat4 cd) (TriEngine.analyzeAcademic subs)
    have hsub := TriEngine.topStrengths_subset (TriEngine.analyzePass pf)
      (TriEngine.analyzeCat4 cd) (TriEngine.analyzeAcademic subs)
    refine hsorted.imp_of_mem ?_
    intro a b hma hmb hab hadom
    rcases hInvS a (hsub hma) with ⟨hd, hsc⟩ | ⟨hd, hsc⟩ | ⟨hd, hsc⟩
    · rw [hadom] at hd; exact absurd hd (by decide)
    · rw [hadom] at hd; exact absurd hd (by decide)
    · rcases hInvS b (hsub hmb) with ⟨hdb, hscb⟩ | ⟨hdb, hscb⟩ | ⟨hdb, hscb⟩
      · exfalso; linarith
      · exfalso; linarith
      · exact hdb
  · have hsorted := TriEngine.topWeaknesses_sorted (TriEngine.analyzePass pf)
      (TriEngine.analyzeCat4 cd) (TriEngine.analyzeAcademic subs)
    have hsub := TriEngine.topWeaknesses_subset (TriEngine.analyzePass pf)
      (TriEngine.analyzeCat4 cd) (TriEngine.analyzeAcademic subs)
    refine hsorted.imp_of_mem ?_
    intro a b hma hmb hab hadom
    rcases hInvW a (hsub hma) with ⟨hd, hsc⟩ | ⟨hd, hsc⟩ | ⟨hd, hsc⟩
    · rw [hadom] at hd; exact absurd hd (by decide)
    · rcases hInvW b (hsub hmb) with ⟨hdb, hscb⟩ | ⟨hdb, hscb⟩ | ⟨hdb, hscb⟩
      · exfalso; linarith
      · exact hdb
      · exfalso; linarith
    · rw [hadom] at hd; exact absurd hd (by decide)

/-- C10 witness: the cross-scale ordering at a concrete profile with one
PASS strength (70), one CAT4 strength (stanine 8, SAS 127) and one academic
strength and weakness-free CAT4/academic weakness mix. -/
theorem claim_C10_witness :
    ((TriEngine.generateTriangulatedSummary
        (TriEngine.analyzePass [⟨"General Work Ethic", 70⟩])
        (TriEngine.analyzeCat4 [⟨"Verbal", 8⟩])
        (TriEngine.analyzeAcademic [⟨"Math", 8⟩])).topStrengths).Pairwise
      (fun a b => a.domain = "Academic" → b.domain = "Academic")
    ∧ ((TriEngine.generateTriangulatedSummary
        (TriEngine.analyzePass [⟨"General Work Ethic", 70⟩])
        (TriEngine.analyzeCat4 [⟨"Verbal", 8⟩])
        (TriEngine.analyzeAcademic [⟨"Math", 8⟩])).topWeaknesses).Pairwise
      (fun a b => a.domain = "CAT4" → b.domain = "CAT4") :=
  claim_C10 [⟨"General Work Ethic", 70⟩] [⟨"Verbal", 8⟩] [⟨"Math", 8⟩]
    (by intro f hf; simp at hf; subst hf; norm_num)
    (by intro d hd; simp at hd; subst hd; norm_num [TriEngine.stanineToSas])
    (by intro s hs; simp at hs; subst hs; norm_num)
